import Mathlib

/-!
Verification of the Talk World voice-service wrappers.

Shallow embedding of the three Flask services:
  * `m2m100-translation-server.py`  (namespace `M2M100`)
  * `coqui-tts-server.py`           (namespace `CoquiTTS`)
  * `whisper-stt-server.py`         (namespace `WhisperSTT`)

External model libraries (langdetect, M2M100 generate, whisper transcribe,
XTTS synthesis) are modelled as oracle parameters: a value of `Option`/
`Except` type, or a function producing one, stands for the library call,
with `none`/`.error` standing for a raised exception.  The filesystem is a
list of paths; creating the per-request temporary file conses its path,
`os.unlink` erases it.
-/

namespace M2M100

/-- The static `LANGUAGE_MAP` dictionary of `m2m100-translation-server.py`
(lines 34-81), in source order. -/
def LANGUAGE_MAP : List (String × String) :=
  [("en", "en"), ("es", "es"), ("fr", "fr"), ("de", "de"), ("it", "it"),
   ("pt", "pt"), ("pt-br", "pt"), ("pt-pt", "pt"), ("ru", "ru"), ("zh", "zh"),
   ("zh-cn", "zh"), ("zh-tw", "zh"), ("ja", "ja"), ("ko", "ko"), ("ar", "ar"),
   ("hi", "hi"), ("tr", "tr"), ("nl", "nl"), ("pl", "pl"), ("sv", "sv"),
   ("da", "da"), ("no", "no"), ("fi", "fi"), ("cs", "cs"), ("hu", "hu"),
   ("ro", "ro"), ("bg", "bg"), ("hr", "hr"), ("sk", "sk"), ("sl", "sl"),
   ("et", "et"), ("lv", "lv"), ("lt", "lt"), ("mt", "mt"), ("ga", "ga"),
   ("cy", "cy"), ("eu", "eu"), ("ca", "ca"), ("gl", "gl"), ("is", "is"),
   ("mk", "mk"), ("sq", "sq"), ("sr", "sr"), ("bs", "bs"), ("me", "me"),
   ("lb", "lb")]

/-- Python `dict.get(k, d)` on an association list. -/
def dictGet (m : List (String × String)) (k d : String) : String :=
  match m.find? (fun p => p.1 == k) with
  | some p => p.2
  | none => d

/-- Python `k in dict` (membership in keys). -/
def dictHasKey (m : List (String × String)) (k : String) : Bool :=
  (m.find? (fun p => p.1 == k)).isSome

/-- `LANGUAGE_MAP.values()`. -/
def LANGUAGE_MAP_values : List String := LANGUAGE_MAP.map Prod.snd

/-- `detect_language(text)` (lines 108-130).  The `langdetect.detect(text)`
call is the oracle `detected`: `none` for a raised exception, `some d` for a
returned code `d`.  The function maps a recognized code through
`LANGUAGE_MAP`, keeps a code already among the map's values, and falls back
to `"en"` otherwise or on exception. -/
def detect_language (detected : Option String) : String :=
  match detected with
  | none => "en"
  | some d =>
    if dictHasKey LANGUAGE_MAP d then dictGet LANGUAGE_MAP d "en"
    else if LANGUAGE_MAP_values.contains d then d
    else "en"

/-- Result of `translate_text`: the `Except` is the returned string or the
raised exception's message; `generateCalled` records whether
`model.generate` ran for this call. -/
structure TranslateTextOut where
  result : Except String String
  generateCalled : Bool
deriving Repr

/-- `translate_text(text, source_lang, target_lang)` (lines 132-174).
`loaded` is `model is not None and tokenizer is not None`; `st` is the
current value of the process-wide `tokenizer.src_lang` attribute; `gen`
oracles the encode + `model.generate` + decode pipeline (argument order:
text, tokenizer src_lang, target language).  Returns the call's outcome and
the new value of `tokenizer.src_lang`.  The source checks `loaded` first,
then takes the same-language fast path before any tokenizer or model work;
on the generate path it first assigns `tokenizer.src_lang = source_lang` and
returns `translation.strip()`. -/
def translate_text (st : String) (loaded : Bool)
    (gen : String → String → String → Except String String)
    (text source_lang target_lang : String) :
    TranslateTextOut × String :=
  if !loaded then (⟨.error "Model not loaded", false⟩, st)
  else if source_lang == target_lang then (⟨.ok text, false⟩, st)
  else
    let st' := source_lang
    match gen text st' target_lang with
    | .ok translation => (⟨.ok translation.trim, true⟩, st')
    | .error e => (⟨.error e, true⟩, st')

/-- A JSON object body restricted to string-valued fields, as the handlers
consume it; `none` models `request.get_json()` returning `None`. -/
def JsonBody := Option (List (String × String))

/-- `data.get(k)` / `data.get(k, default=None)`. -/
def jsonLookup (kvs : List (String × String)) (k : String) : Option String :=
  (kvs.find? (fun p => p.1 == k)).map Prod.snd

/-- Python `not data or "text" not in data` (line 209): `None`, the empty
object, and a missing `"text"` key all fail validation. -/
def bodyMissingText : Option (List (String × String)) → Bool
  | none => true
  | some kvs => kvs.isEmpty || (jsonLookup kvs "text").isNone

/-- The HTTP response of the `/api/translate` handler: status plus the JSON
fields the claims mention. -/
structure TranslateResponse where
  status : Nat
  original_text : Option String := none
  translated_text : Option String := none
  errorMsg : Option String := none
deriving Repr, DecidableEq

/-- Full observable outcome of one `/api/translate` request: the response,
whether `model.generate` was invoked, and the post-request value of the
process-wide `tokenizer.src_lang`. -/
structure TranslateHandlerOut where
  resp : TranslateResponse
  generateCalled : Bool
  srcLangState : String
deriving Repr, DecidableEq

/-- The handler's resolved source language (lines 213-221): the
`source_language` field if present and truthy, else `detect_language`, then
remapped with `LANGUAGE_MAP.get(source_lang, "en")`. -/
def resolveSource (detected : Option String) (kvs : List (String × String)) : String :=
  let s0 :=
    match jsonLookup kvs "source_language" with
    | none => detect_language detected
    | some s => if s == "" then detect_language detected else s
  dictGet LANGUAGE_MAP s0 "en"

/-- The handler's resolved target language (lines 214, 222):
`data.get("target_language", "en")` remapped with
`LANGUAGE_MAP.get(target_lang, "en")`. -/
def resolveTarget (kvs : List (String × String)) : String :=
  dictGet LANGUAGE_MAP ((jsonLookup kvs "target_language").getD "en") "en"

/-- The `/api/translate` handler `translate()` (lines 204-243).  Oracles:
`detected` for `langdetect.detect`, `gen` for the generate pipeline;
`loaded` and `st` are the process-wide model-loaded flag and
`tokenizer.src_lang` before the request.  Missing/empty body or missing
`"text"` yields 400; a `translate_text` exception is caught at the outer
boundary and yields 500 with the stringified message; success yields 200
with `original_text`/`translated_text`. -/
def translate (st : String) (loaded : Bool) (detected : Option String)
    (gen : String → String → String → Except String String)
    (body : Option (List (String × String))) : TranslateHandlerOut :=
  match body with
  | none => ⟨{status := 400, errorMsg := some "Text is required"}, false, st⟩
  | some kvs =>
    if kvs.isEmpty then ⟨{status := 400, errorMsg := some "Text is required"}, false, st⟩
    else
      match jsonLookup kvs "text" with
      | none => ⟨{status := 400, errorMsg := some "Text is required"}, false, st⟩
      | some text =>
        let source_lang := resolveSource detected kvs
        let target_lang := resolveTarget kvs
        let r := translate_text st loaded gen text source_lang target_lang
        match r.1.result with
        | .ok translation =>
          ⟨{status := 200, original_text := some text,
            translated_text := some translation}, r.1.generateCalled, r.2⟩
        | .error e =>
          ⟨{status := 500, errorMsg := some ("Translation failed: " ++ e)},
            r.1.generateCalled, r.2⟩

end M2M100

namespace CoquiTTS

/-- The static `LANGUAGE_MAP` dictionary of `coqui-tts-server.py`
(lines 53-71), in source order. -/
def LANGUAGE_MAP : List (String × String) :=
  [("en", "en"), ("es", "es"), ("fr", "fr"), ("de", "de"), ("it", "it"),
   ("pt", "pt"), ("pl", "pl"), ("tr", "tr"), ("ru", "ru"), ("nl", "nl"),
   ("cs", "cs"), ("ar", "ar"), ("zh-cn", "zh-cn"), ("ja", "ja"),
   ("hu", "hu"), ("ko", "ko"), ("hi", "hi")]

/-- Python truthiness of an optional string field read with
`data.get(k, None)`: `None` and `""` are falsy. -/
def truthy : Option String → Bool
  | none => false
  | some s => s != ""

/-- The synthesis mode of one `tts.tts_to_file` invocation, recording which
speaker argument (if any) was passed. -/
inductive SynthMode where
  | cloning (wav : String)
  | preset (sp : String)
  | firstSpeaker (sp : String)
  | noSpeaker
deriving Repr, DecidableEq

/-- The speaker-selection precedence of `text_to_speech` (lines 119-161):
voice cloning if `speaker_wav` is truthy, else the preset `speaker` if
truthy, else the model's first built-in speaker if `tts.speakers` is
non-empty, else no speaker argument.  `speakers` models
`tts.speakers if hasattr(tts, "speakers") else []`. -/
def chooseMode (speaker_wav speaker : Option String) (speakers : List String) :
    SynthMode :=
  if truthy speaker_wav then .cloning (speaker_wav.getD "")
  else if truthy speaker then .preset (speaker.getD "")
  else
    match speakers with
    | sp :: _ => .firstSpeaker sp
    | [] => .noSpeaker

/-- Observable outcome of one `/api/tts` request: HTTP status, the
filesystem after the handler returns, and the single `tts_to_file`
invocation made (`none` when synthesis was never invoked). -/
structure TtsOut where
  status : Nat
  fs : List String
  modeInvoked : Option SynthMode
  errorMsg : Option String
deriving Repr, DecidableEq

/-- The `/api/tts` handler `text_to_speech()` (lines 96-183).  `tmpName` is
the fresh path handed out by `tempfile.NamedTemporaryFile(delete=False)`;
`synth` oracles `tts.tts_to_file` (`none` = returned, `some e` = raised
with message `e`); `fs0` is the filesystem before the request.  The temp
file is created after validation, and the `finally` block unlinks it on
both the success and the exception path before the response is returned. -/
def text_to_speech (speakers : List String) (tmpName : String)
    (synth : SynthMode → Option String)
    (body : Option (List (String × String)))
    (fs0 : List String) : TtsOut :=
  match body with
  | none => ⟨400, fs0, none, some "Text is required"⟩
  | some kvs =>
    if kvs.isEmpty then ⟨400, fs0, none, some "Text is required"⟩
    else
      match M2M100.jsonLookup kvs "text" with
      | none => ⟨400, fs0, none, some "Text is required"⟩
      | some _text =>
        let language := (M2M100.jsonLookup kvs "language_id").getD "en"
        let speaker_wav := M2M100.jsonLookup kvs "speaker_wav"
        let speaker := M2M100.jsonLookup kvs "speaker"
        let _mapped_language := M2M100.dictGet LANGUAGE_MAP language "en"
        let fs1 := tmpName :: fs0
        let mode := chooseMode speaker_wav speaker speakers
        let fs2 := fs1.erase tmpName
        match synth mode with
        | none => ⟨200, fs2, some mode, none⟩
        | some e => ⟨500, fs2, some mode, some ("TTS generation failed: " ++ e)⟩

/-- Import-time side effects of a service module's prelude, as they appear
textually before the first route handler. -/
inductive PreludeAction where
  | setEnv (key value : String)
  | addSafeGlobals (names : List String)
  | configureLogging
  | createApp
  | enableCors
  | loadModel (name : String)
deriving Repr, DecidableEq

/-- The module prelude of `coqui-tts-server.py` (lines 1-50): registers
torch serialization safe-globals, configures logging, creates the Flask
app, enables CORS, and loads the XTTS v2 model.  No other import-time side
effect appears in the source. -/
def modulePrelude : List PreludeAction :=
  [.addSafeGlobals ["XttsConfig", "XttsAudioConfig", "BaseDatasetConfig", "XttsArgs"],
   .configureLogging,
   .createApp,
   .enableCors,
   .loadModel "tts_models/multilingual/multi-dataset/xtts_v2"]

/-- Whether a prelude action assigns an environment variable. -/
def isSetEnv : PreludeAction → Bool
  | .setEnv _ _ => true
  | _ => false

end CoquiTTS

namespace WhisperSTT

/-- Observable outcome of one `/api/transcribe` request: HTTP status, the
filesystem after the handler returns, and whether `model.transcribe` was
invoked. -/
structure SttOut where
  status : Nat
  fs : List String
  transcribeCalled : Bool
  errorMsg : Option String
deriving Repr, DecidableEq

/-- The `/api/transcribe` handler `speech_to_text()` (lines 53-103).
`files` models `request.files` as field-name/filename pairs; `tmpName` the
fresh temp path; `saveErr` models `audio_file.save(tmp_file.name)`:
`none` = it returns, `some e` = it raises with message `e` inside the
`with` block, before `temp_path` is bound and before the inner
`try`/`finally` exists, so the exception reaches the outer handler (500)
and no unlink runs; `transcribe` oracles `model.transcribe` (`.error` =
raised).  When `save` succeeds, the inner `finally` unlinks the temp file
on both the success and the exception path. -/
def speech_to_text (files : List (String × String)) (_formLanguage : Option String)
    (tmpName : String) (saveErr : Option String)
    (transcribe : Except String String)
    (fs0 : List String) : SttOut :=
  match M2M100.jsonLookup files "audio" with
  | none => ⟨400, fs0, false, some "Audio file is required"⟩
  | some filename =>
    if filename == "" then ⟨400, fs0, false, some "No audio file selected"⟩
    else
      let fs1 := tmpName :: fs0
      match saveErr with
      | some e => ⟨500, fs1, false, some ("Request processing failed: " ++ e)⟩
      | none =>
        let fs2 := fs1.erase tmpName
        match transcribe with
        | .ok _ => ⟨200, fs2, true, none⟩
        | .error e => ⟨500, fs2, true, some ("Transcription failed: " ++ e)⟩

end WhisperSTT

/-! Helper lemmas about the association-list dictionary operations. -/

/-- `dictGet` returns the found pair's value when the key is present. -/
theorem dictGet_of_find (m : List (String × String)) (c d : String)
    (p : String × String) (hf : m.find? (fun q => q.1 == c) = some p) :
    M2M100.dictGet m c d = p.2 := by
  unfold M2M100.dictGet
  rw [hf]

/-- `dictGet` returns the default when the key is absent. -/
theorem dictGet_of_find_none (m : List (String × String)) (c d : String)
    (hf : m.find? (fun q => q.1 == c) = none) :
    M2M100.dictGet m c d = d := by
  unfold M2M100.dictGet
  rw [hf]

/-- A key reported absent by `dictHasKey` makes `dictGet` return the
default. -/
theorem dictGet_of_not_key (m : List (String × String)) (c d : String)
    (h : M2M100.dictHasKey m c = false) :
    M2M100.dictGet m c d = d := by
  unfold M2M100.dictHasKey at h
  cases hf : m.find? (fun q => q.1 == c) with
  | none => exact dictGet_of_find_none m c d hf
  | some p => rw [hf] at h; simp at h

/-- A body containing a `"text"` field is not the empty object. -/
theorem isEmpty_false_of_lookup (kvs : List (String × String)) (k v : String)
    (h : M2M100.jsonLookup kvs k = some v) : kvs.isEmpty = false := by
  cases kvs with
  | nil => simp [M2M100.jsonLookup] at h
  | cons a l => rfl

/-- The first component of `translate_text` (result and generate flag) does
not depend on the incoming `tokenizer.src_lang` state. -/
theorem translate_text_fst_state_independent (st1 st2 : String) (loaded : Bool)
    (gen : String → String → String → Except String String)
    (text s t : String) :
    (M2M100.translate_text st1 loaded gen text s t).1 =
      (M2M100.translate_text st2 loaded gen text s t).1 := by
  unfold M2M100.translate_text
  cases loaded with
  | false => rfl
  | true =>
    cases hst : s == t with
    | true => simp [hst]
    | false => simp [hst]

/-! Theorems for the claims. -/

/-- C1: for every `POST /api/translate` request whose body contains
`"text"`, when the remapped source language equals the remapped target
language, the running service (model loaded) returns a success response in
which `translated_text` equals `original_text` equals the input text, and
`model.generate` is never invoked. -/
theorem translate_same_language_returns_original
    (st : String) (detected : Option String)
    (gen : String → String → String → Except String String)
    (kvs : List (String × String)) (text : String)
    (htext : M2M100.jsonLookup kvs "text" = some text)
    (hsame : M2M100.resolveSource detected kvs = M2M100.resolveTarget kvs) :
    (M2M100.translate st true detected gen (some kvs)).resp.status = 200 ∧
    (M2M100.translate st true detected gen (some kvs)).resp.original_text = some text ∧
    (M2M100.translate st true detected gen (some kvs)).resp.translated_text = some text ∧
    (M2M100.translate st true detected gen (some kvs)).generateCalled = false := by
  have hne := isEmpty_false_of_lookup kvs "text" text htext
  simp [M2M100.translate, hne, htext, hsame, M2M100.translate_text]

/-- Witness for C1: a concrete es→es request returns the input unchanged
even when the generate oracle would raise. -/
theorem translate_same_language_returns_original_witness :
    (M2M100.translate "en" true none (fun _ _ _ => .error "boom")
      (some [("text", "hola"), ("source_language", "es"),
             ("target_language", "es")])).resp.status = 200 ∧
    (M2M100.translate "en" true none (fun _ _ _ => .error "boom")
      (some [("text", "hola"), ("source_language", "es"),
             ("target_language", "es")])).resp.original_text = some "hola" ∧
    (M2M100.translate "en" true none (fun _ _ _ => .error "boom")
      (some [("text", "hola"), ("source_language", "es"),
             ("target_language", "es")])).resp.translated_text = some "hola" ∧
    (M2M100.translate "en" true none (fun _ _ _ => .error "boom")
      (some [("text", "hola"), ("source_language", "es"),
             ("target_language", "es")])).generateCalled = false :=
  translate_same_language_returns_original "en" none (fun _ _ _ => .error "boom")
    [("text", "hola"), ("source_language", "es"), ("target_language", "es")]
    "hola" rfl rfl

/-- C5: language remapping is a pure, deterministic function: every code
absent from the table's keys resolves to the default `"en"`, in both the
translation and TTS tables, and repeated lookups agree. -/
theorem language_remap_pure_default_en :
    (∀ c, M2M100.dictHasKey M2M100.LANGUAGE_MAP c = false →
      M2M100.dictGet M2M100.LANGUAGE_MAP c "en" = "en") ∧
    (∀ c, M2M100.dictHasKey CoquiTTS.LANGUAGE_MAP c = false →
      M2M100.dictGet CoquiTTS.LANGUAGE_MAP c "en" = "en") ∧
    (∀ c, M2M100.dictGet M2M100.LANGUAGE_MAP c "en" =
      M2M100.dictGet M2M100.LANGUAGE_MAP c "en") ∧
    (∀ c, M2M100.dictGet CoquiTTS.LANGUAGE_MAP c "en" =
      M2M100.dictGet CoquiTTS.LANGUAGE_MAP c "en") :=
  ⟨fun c h => dictGet_of_not_key _ c "en" h,
   fun c h => dictGet_of_not_key _ c "en" h,
   fun _ => rfl, fun _ => rfl⟩

/-- Witness for C5: the unrecognized code `"xx"` resolves to `"en"` in both
tables. -/
theorem language_remap_pure_default_en_witness :
    M2M100.dictHasKey M2M100.LANGUAGE_MAP "xx" = false ∧
    M2M100.dictGet M2M100.LANGUAGE_MAP "xx" "en" = "en" ∧
    M2M100.dictHasKey CoquiTTS.LANGUAGE_MAP "xx" = false ∧
    M2M100.dictGet CoquiTTS.LANGUAGE_MAP "xx" "en" = "en" :=
  ⟨by decide, language_remap_pure_default_en.1 "xx" (by decide),
   by decide, language_remap_pure_default_en.2.1 "xx" (by decide)⟩

/-- C8 counterexample: the module prelude of `coqui-tts-server.py` contains
no environment-variable assignment at all, so the claim that license/cache
environment variables are set unconditionally at import time is false of
this source. -/
theorem tts_prelude_has_no_setenv :
    CoquiTTS.modulePrelude.any CoquiTTS.isSetEnv = false := by decide

/-- C8 amended: the TTS service sets no environment variables at module
load; its unconditional import-time action before the model load is
registering the torch serialization safe-globals (to bypass the PyTorch
`weights_only` restriction), and the model load is the prelude's last
action. -/
theorem tts_prelude_safe_globals_before_load :
    CoquiTTS.modulePrelude.any CoquiTTS.isSetEnv = false ∧
    CoquiTTS.modulePrelude.head? =
      some (.addSafeGlobals
        ["XttsConfig", "XttsAudioConfig", "BaseDatasetConfig", "XttsArgs"]) ∧
    CoquiTTS.modulePrelude.getLast? =
      some (.loadModel "tts_models/multilingual/multi-dataset/xtts_v2") := by
  decide

/-- C9: both static language tables are idempotent under remapping: every
value of each table is itself a key of that table mapping to itself, and
remapping a remapped code (with the handlers' `"en"` default) is a fixed
point for every input code. -/
theorem language_map_idempotent :
    (∀ p ∈ M2M100.LANGUAGE_MAP,
      M2M100.dictHasKey M2M100.LANGUAGE_MAP p.2 = true ∧
      M2M100.dictGet M2M100.LANGUAGE_MAP p.2 "en" = p.2) ∧
    (∀ p ∈ CoquiTTS.LANGUAGE_MAP,
      M2M100.dictHasKey CoquiTTS.LANGUAGE_MAP p.2 = true ∧
      M2M100.dictGet CoquiTTS.LANGUAGE_MAP p.2 "en" = p.2) ∧
    (∀ c, M2M100.dictGet M2M100.LANGUAGE_MAP
        (M2M100.dictGet M2M100.LANGUAGE_MAP c "en") "en" =
      M2M100.dictGet M2M100.LANGUAGE_MAP c "en") ∧
    (∀ c, M2M100.dictGet CoquiTTS.LANGUAGE_MAP
        (M2M100.dictGet CoquiTTS.LANGUAGE_MAP c "en") "en" =
      M2M100.dictGet CoquiTTS.LANGUAGE_MAP c "en") := by
  have h1 : ∀ p ∈ M2M100.LANGUAGE_MAP,
      M2M100.dictHasKey M2M100.LANGUAGE_MAP p.2 = true ∧
      M2M100.dictGet M2M100.LANGUAGE_MAP p.2 "en" = p.2 := by decide
  have h2 : ∀ p ∈ CoquiTTS.LANGUAGE_MAP,
      M2M100.dictHasKey CoquiTTS.LANGUAGE_MAP p.2 = true ∧
      M2M100.dictGet CoquiTTS.LANGUAGE_MAP p.2 "en" = p.2 := by decide
  refine ⟨h1, h2, fun c => ?_, fun c => ?_⟩
  · cases hf : M2M100.LANGUAGE_MAP.find? (fun q => q.1 == c) with
    | none =>
      rw [dictGet_of_find_none _ c "en" hf]
      decide
    | some p =>
      rw [dictGet_of_find _ c "en" p hf]
      exact (h1 p (List.mem_of_find?_eq_some hf)).2
  · cases hf : CoquiTTS.LANGUAGE_MAP.find? (fun q => q.1 == c) with
    | none =>
      rw [dictGet_of_find_none _ c "en" hf]
      decide
    | some p =>
      rw [dictGet_of_find _ c "en" p hf]
      exact (h2 p (List.mem_of_find?_eq_some hf)).2

/-- Witness for C9: the regional codes `"pt-br"` and `"zh-cn"` remap to
fixed points of their tables. -/
theorem language_map_idempotent_witness :
    M2M100.dictGet M2M100.LANGUAGE_MAP "pt" "en" = "pt" ∧
    M2M100.dictGet M2M100.LANGUAGE_MAP
        (M2M100.dictGet M2M100.LANGUAGE_MAP "pt-br" "en") "en" =
      M2M100.dictGet M2M100.LANGUAGE_MAP "pt-br" "en" ∧
    M2M100.dictGet CoquiTTS.LANGUAGE_MAP
        (M2M100.dictGet CoquiTTS.LANGUAGE_MAP "zh-cn" "en") "en" =
      M2M100.dictGet CoquiTTS.LANGUAGE_MAP "zh-cn" "en" :=
  ⟨(language_map_idempotent.1 ("pt-br", "pt") (by decide)).2,
   language_map_idempotent.2.2.1 "pt-br",
   language_map_idempotent.2.2.2 "zh-cn"⟩

/-- C10: `detect_language` is total over every detector outcome and always
returns a value of the static language table; it returns `"en"` when the
underlying detection raises and when the detected code is neither a key nor
a value of the table. -/
theorem detect_language_total_returns_table_value (detected : Option String) :
    M2M100.detect_language detected ∈ M2M100.LANGUAGE_MAP_values ∧
    (detected = none → M2M100.detect_language detected = "en") ∧
    (∀ d, detected = some d →
      M2M100.dictHasKey M2M100.LANGUAGE_MAP d = false →
      M2M100.LANGUAGE_MAP_values.contains d = false →
      M2M100.detect_language detected = "en") := by
  cases detected with
  | none =>
    exact ⟨by decide, fun _ => rfl, fun d h => nomatch h⟩
  | some d =>
    refine ⟨?_, ?_, ?_⟩
    · unfold M2M100.detect_language
      by_cases hk : M2M100.dictHasKey M2M100.LANGUAGE_MAP d = true
      · simp only [hk, if_true]
        have hs := hk
        unfold M2M100.dictHasKey at hs
        obtain ⟨p, hp⟩ := Option.isSome_iff_exists.mp hs
        rw [dictGet_of_find _ d "en" p hp]
        exact List.mem_map_of_mem Prod.snd (List.mem_of_find?_eq_some hp)
      · simp only [Bool.not_eq_true] at hk
        simp only [hk, Bool.false_eq_true, if_false]
        by_cases hc : M2M100.LANGUAGE_MAP_values.contains d = true
        · simp only [hc, if_true]
          exact List.mem_of_elem_eq_true hc
        · simp only [Bool.not_eq_true] at hc
          simp only [hc, Bool.false_eq_true, if_false]
          decide
    · intro h
      cases h
    · intro d' hd' hk hc
      cases hd'
      unfold M2M100.detect_language
      simp only [hk, hc, Bool.false_eq_true, if_false]

/-- C2: every request missing its required field (no `"audio"` file, an
empty upload filename, or a body without `"text"` for the TTS and
translation endpoints) gets HTTP 400 with an `{error: <message>}` body, the
model inference call is never made, and the filesystem and tokenizer state
are untouched. -/
theorem missing_required_field_returns_400 :
    (∀ files lang tmp saveErr tr fs0,
      M2M100.jsonLookup files "audio" = none →
      WhisperSTT.speech_to_text files lang tmp saveErr tr fs0 =
        ⟨400, fs0, false, some "Audio file is required"⟩) ∧
    (∀ files lang tmp saveErr tr fs0,
      M2M100.jsonLookup files "audio" = some "" →
      WhisperSTT.speech_to_text files lang tmp saveErr tr fs0 =
        ⟨400, fs0, false, some "No audio file selected"⟩) ∧
    (∀ speakers tmp synth body fs0,
      M2M100.bodyMissingText body = true →
      CoquiTTS.text_to_speech speakers tmp synth body fs0 =
        ⟨400, fs0, none, some "Text is required"⟩) ∧
    (∀ st loaded detected gen body,
      M2M100.bodyMissingText body = true →
      M2M100.translate st loaded detected gen body =
        ⟨{status := 400, errorMsg := some "Text is required"}, false, st⟩) := by
  refine ⟨?_, ?_, ?_, ?_⟩
  · intro files lang tmp saveErr tr fs0 h
    unfold WhisperSTT.speech_to_text
    rw [h]
  · intro files lang tmp saveErr tr fs0 h
    unfold WhisperSTT.speech_to_text
    rw [h]
    rfl
  · intro speakers tmp synth body fs0 h
    cases body with
    | none => rfl
    | some kvs =>
      have h2 : (kvs.isEmpty || (M2M100.jsonLookup kvs "text").isNone) = true := h
      unfold CoquiTTS.text_to_speech
      cases he : kvs.isEmpty with
      | true => simp [he]
      | false =>
        rw [he] at h2
        simp only [Bool.false_or] at h2
        rw [Option.isNone_iff_eq_none] at h2
        simp [he, h2]
  · intro st loaded detected gen body h
    cases body with
    | none => rfl
    | some kvs =>
      have h2 : (kvs.isEmpty || (M2M100.jsonLookup kvs "text").isNone) = true := h
      unfold M2M100.translate
      cases he : kvs.isEmpty with
      | true => simp [he]
      | false =>
        rw [he] at h2
        simp only [Bool.false_or] at h2
        rw [Option.isNone_iff_eq_none] at h2
        simp [he, h2]

/-- Witness for C2: concrete requests with missing or empty fields at each
of the three endpoints. -/
theorem missing_required_field_returns_400_witness :
    WhisperSTT.speech_to_text [("file", "a.wav")] none "/tmp/a.wav" none
      (.ok "") [] = ⟨400, [], false, some "Audio file is required"⟩ ∧
    WhisperSTT.speech_to_text [("audio", "")] none "/tmp/a.wav" none
      (.ok "") [] = ⟨400, [], false, some "No audio file selected"⟩ ∧
    CoquiTTS.text_to_speech [] "/tmp/b.wav" (fun _ => none)
      (some [("speaker", "Ana")]) [] =
      ⟨400, [], none, some "Text is required"⟩ ∧
    M2M100.translate "en" true none (fun _ _ _ => .ok "x") none =
      ⟨{status := 400, errorMsg := some "Text is required"}, false, "en"⟩ :=
  ⟨missing_required_field_returns_400.1 [("file", "a.wav")] none "/tmp/a.wav"
      none (.ok "") [] rfl,
   missing_required_field_returns_400.2.1 [("audio", "")] none "/tmp/a.wav"
      none (.ok "") [] rfl,
   missing_required_field_returns_400.2.2.1 [] "/tmp/b.wav" (fun _ => none)
      (some [("speaker", "Ana")]) [] rfl,
   missing_required_field_returns_400.2.2.2 "en" true none
      (fun _ _ _ => .ok "x") none rfl⟩

/-- C4 counterexample: with the model handle null, a well-formed
`/api/translate` request is answered with HTTP 500 (the handler's generic
exception boundary), not the claimed HTTP 503. -/
theorem null_model_translate_returns_500_not_503 :
    (M2M100.translate "" false none (fun _ _ _ => .ok "bonjour")
      (some [("text", "hello")])).resp.status = 500 ∧
    ¬ (M2M100.translate "" false none (fun _ _ _ => .ok "bonjour")
      (some [("text", "hello")])).resp.status = 503 := by
  decide

/-- C4 amended: while the translation model handle is null, every
well-formed `/api/translate` request is answered with HTTP 500 and body
`{error: "Translation failed: Model not loaded"}`, `model.generate` is
never invoked, and no state changes — so the degraded answer repeats on
every subsequent request until restart.  (Run via `__main__`, the STT and
TTS services instead abort at startup when their model fails to load.) -/
theorem null_model_translate_always_500
    (st : String) (detected : Option String)
    (gen : String → String → String → Except String String)
    (kvs : List (String × String)) (text : String)
    (htext : M2M100.jsonLookup kvs "text" = some text) :
    (M2M100.translate st false detected gen (some kvs)).resp.status = 500 ∧
    (M2M100.translate st false detected gen (some kvs)).resp.errorMsg =
      some "Translation failed: Model not loaded" ∧
    (M2M100.translate st false detected gen (some kvs)).generateCalled = false ∧
    (M2M100.translate st false detected gen (some kvs)).srcLangState = st := by
  have hne := isEmpty_false_of_lookup kvs "text" text htext
  simp [M2M100.translate, hne, htext, M2M100.translate_text]

/-- Witness for C4 amended: a concrete request against the null model
handle. -/
theorem null_model_translate_always_500_witness :
    (M2M100.translate "en" false none (fun _ _ _ => .ok "hallo")
      (some [("text", "hi"), ("target_language", "de")])).resp.status = 500 ∧
    (M2M100.translate "en" false none (fun _ _ _ => .ok "hallo")
      (some [("text", "hi"), ("target_language", "de")])).resp.errorMsg =
      some "Translation failed: Model not loaded" ∧
    (M2M100.translate "en" false none (fun _ _ _ => .ok "hallo")
      (some [("text", "hi"), ("target_language", "de")])).generateCalled = false ∧
    (M2M100.translate "en" false none (fun _ _ _ => .ok "hallo")
      (some [("text", "hi"), ("target_language", "de")])).srcLangState = "en" :=
  null_model_translate_always_500 "en" none (fun _ _ _ => .ok "hallo")
    [("text", "hi"), ("target_language", "de")] "hi" rfl

/-- C3 counterexample: in the speech-to-text handler, when
`audio_file.save` raises inside the `with` block (before `temp_path` is
bound and before the inner `try`/`finally` exists), the outer boundary
answers 500 but the already-created temporary file is never unlinked and
remains on the filesystem after the response. -/
theorem stt_save_failure_leaks_temp_file :
    "/tmp/req.wav" ∈ (WhisperSTT.speech_to_text [("audio", "a.wav")] none
      "/tmp/req.wav" (some "disk full") (.ok "") []).fs ∧
    (WhisperSTT.speech_to_text [("audio", "a.wav")] none "/tmp/req.wav"
      (some "disk full") (.ok "") []).status = 500 := by
  decide

/-- C3 amended: the scoped temporary file is absent from the filesystem
after the response in every outcome — model-call success, model-call
exception, and (for TTS) any later step — except the one gap the
counterexample exhibits: in the speech-to-text handler an exception raised
by the upload-save step itself, between the file's creation and the
`try`/`finally` that guards it, leaks the file.  Formally: once the
upload-save step has succeeded the STT temp file is always gone, and the
TTS temp file is always gone in every outcome. -/
theorem temp_file_absent_after_response :
    (∀ files lang tmp tr fs0, tmp ∉ fs0 →
      tmp ∉ (WhisperSTT.speech_to_text files lang tmp none tr fs0).fs) ∧
    (∀ speakers tmp synth body fs0, tmp ∉ fs0 →
      tmp ∉ (CoquiTTS.text_to_speech speakers tmp synth body fs0).fs) := by
  constructor
  · intro files lang tmp tr fs0 h
    unfold WhisperSTT.speech_to_text
    cases hf : M2M100.jsonLookup files "audio" with
    | none => simpa using h
    | some fn =>
      cases hfn : fn == "" with
      | true => simpa [hfn] using h
      | false =>
        simp only [hfn, Bool.false_eq_true, if_false, List.erase_cons_head]
        cases tr with
        | ok t => simpa using h
        | error e => simpa using h
  · intro speakers tmp synth body fs0 h
    cases body with
    | none => simpa [CoquiTTS.text_to_speech] using h
    | some kvs =>
      unfold CoquiTTS.text_to_speech
      cases he : kvs.isEmpty with
      | true => simpa [he] using h
      | false =>
        cases ht : M2M100.jsonLookup kvs "text" with
        | none => simpa [he, ht] using h
        | some t =>
          simp only [he, ht, Bool.false_eq_true, if_false,
            List.erase_cons_head]
          cases synth (CoquiTTS.chooseMode (M2M100.jsonLookup kvs "speaker_wav")
              (M2M100.jsonLookup kvs "speaker") speakers) with
          | none => simpa using h
          | some e => simpa using h

/-- Witness for C3 amended: concrete successful and failing inference runs
leave no temp file behind at either endpoint. -/
theorem temp_file_absent_after_response_witness :
    "/tmp/a.wav" ∉ (WhisperSTT.speech_to_text [("audio", "v.ogg")] none
      "/tmp/a.wav" none (.error "bad audio") ["/other.txt"]).fs ∧
    "/tmp/b.wav" ∉ (CoquiTTS.text_to_speech [] "/tmp/b.wav" (fun _ => none)
      (some [("text", "hi")]) []).fs :=
  ⟨temp_file_absent_after_response.1 [("audio", "v.ogg")] none "/tmp/a.wav"
      (.error "bad audio") ["/other.txt"] (by decide),
   temp_file_absent_after_response.2 [] "/tmp/b.wav" (fun _ => none)
      (some [("text", "hi")]) [] (by decide)⟩

/-- C6: for every valid text-to-speech request exactly one synthesis mode
is invoked, selected by precedence: a given (present and non-empty, i.e.
truthy) `speaker_wav` selects voice cloning with that reference; else a
truthy `speaker` selects that preset speaker; else a non-empty model
speaker list selects its first entry; else synthesis runs with no speaker
argument. -/
theorem tts_mode_precedence
    (speakers : List String) (tmp : String)
    (synth : CoquiTTS.SynthMode → Option String)
    (kvs : List (String × String)) (text : String) (fs0 : List String)
    (htext : M2M100.jsonLookup kvs "text" = some text) :
    (CoquiTTS.text_to_speech speakers tmp synth (some kvs) fs0).modeInvoked =
      some (CoquiTTS.chooseMode (M2M100.jsonLookup kvs "speaker_wav")
        (M2M100.jsonLookup kvs "speaker") speakers) ∧
    (∀ w, M2M100.jsonLookup kvs "speaker_wav" = some w → w ≠ "" →
      CoquiTTS.chooseMode (M2M100.jsonLookup kvs "speaker_wav")
        (M2M100.jsonLookup kvs "speaker") speakers = .cloning w) ∧
    (CoquiTTS.truthy (M2M100.jsonLookup kvs "speaker_wav") = false →
      ∀ sp, M2M100.jsonLookup kvs "speaker" = some sp → sp ≠ "" →
      CoquiTTS.chooseMode (M2M100.jsonLookup kvs "speaker_wav")
        (M2M100.jsonLookup kvs "speaker") speakers = .preset sp) ∧
    (CoquiTTS.truthy (M2M100.jsonLookup kvs "speaker_wav") = false →
      CoquiTTS.truthy (M2M100.jsonLookup kvs "speaker") = false →
      ∀ s0 rest, speakers = s0 :: rest →
      CoquiTTS.chooseMode (M2M100.jsonLookup kvs "speaker_wav")
        (M2M100.jsonLookup kvs "speaker") speakers = .firstSpeaker s0) ∧
    (CoquiTTS.truthy (M2M100.jsonLookup kvs "speaker_wav") = false →
      CoquiTTS.truthy (M2M100.jsonLookup kvs "speaker") = false →
      speakers = [] →
      CoquiTTS.chooseMode (M2M100.jsonLookup kvs "speaker_wav")
        (M2M100.jsonLookup kvs "speaker") speakers = .noSpeaker) := by
  have hne := isEmpty_false_of_lookup kvs "text" text htext
  refine ⟨?_, ?_, ?_, ?_, ?_⟩
  · unfold CoquiTTS.text_to_speech
    simp only [hne, htext, Bool.false_eq_true, if_false]
    cases synth (CoquiTTS.chooseMode (M2M100.jsonLookup kvs "speaker_wav")
        (M2M100.jsonLookup kvs "speaker") speakers) with
    | none => rfl
    | some e => rfl
  · intro w hw hwne
    unfold CoquiTTS.chooseMode
    rw [hw]
    have : CoquiTTS.truthy (some w) = true := by
      unfold CoquiTTS.truthy
      simpa using hwne
    simp [this]
  · intro hwav sp hsp hspne
    unfold CoquiTTS.chooseMode
    rw [hsp]
    have hsp2 : CoquiTTS.truthy (some sp) = true := by
      unfold CoquiTTS.truthy
      simpa using hspne
    simp [hwav, hsp2]
  · intro hwav hsp s0 rest hs
    unfold CoquiTTS.chooseMode
    simp [hwav, hsp, hs]
  · intro hwav hsp hs
    unfold CoquiTTS.chooseMode
    simp [hwav, hsp, hs]

/-- Witness for C6: with no speaker fields and a one-entry speaker list,
the invoked mode is the model's first speaker. -/
theorem tts_mode_precedence_witness :
    (CoquiTTS.text_to_speech ["Ana Florence"] "/tmp/c.wav" (fun _ => none)
      (some [("text", "hi")]) []).modeInvoked =
      some (CoquiTTS.chooseMode (M2M100.jsonLookup [("text", "hi")] "speaker_wav")
        (M2M100.jsonLookup [("text", "hi")] "speaker") ["Ana Florence"]) ∧
    CoquiTTS.chooseMode (M2M100.jsonLookup [("text", "hi")] "speaker_wav")
      (M2M100.jsonLookup [("text", "hi")] "speaker") ["Ana Florence"] =
      .firstSpeaker "Ana Florence" :=
  ⟨(tts_mode_precedence ["Ana Florence"] "/tmp/c.wav" (fun _ => none)
      [("text", "hi")] "hi" [] rfl).1,
   (tts_mode_precedence ["Ana Florence"] "/tmp/c.wav" (fun _ => none)
      [("text", "hi")] "hi" [] rfl).2.2.2.1 rfl rfl "Ana Florence" [] rfl⟩

/-- C7 counterexample: a single es→en translation request mutates the
process-wide model handle: `tokenizer.src_lang`, `"en"` at startup, is
`"es"` after the request — the handler does mutate process-wide state. -/
theorem translate_mutates_tokenizer_src_lang :
    (M2M100.translate "en" true none (fun _ _ _ => .ok "hello")
      (some [("text", "hola"), ("source_language", "es"),
             ("target_language", "en")])).srcLangState = "es" ∧
    ¬ (M2M100.translate "en" true none (fun _ _ _ => .ok "hello")
      (some [("text", "hola"), ("source_language", "es"),
             ("target_language", "en")])).srcLangState = "en" := by
  decide

/-- C7 amended: the one process-wide mutation is `tokenizer.src_lang`,
assigned by every generate-path translation request; since each generate
path overwrites it before encoding, the observable per-request behavior
(response and generate invocation) is independent of the state left by
previously processed requests. -/
theorem translate_response_independent_of_prior_state
    (st1 st2 : String) (loaded : Bool) (detected : Option String)
    (gen : String → String → String → Except String String)
    (body : Option (List (String × String))) :
    (M2M100.translate st1 loaded detected gen body).resp =
      (M2M100.translate st2 loaded detected gen body).resp ∧
    (M2M100.translate st1 loaded detected gen body).generateCalled =
      (M2M100.translate st2 loaded detected gen body).generateCalled := by
  cases body with
  | none => exact ⟨rfl, rfl⟩
  | some kvs =>
    cases he : kvs.isEmpty with
    | true => simp [M2M100.translate, he]
    | false =>
      cases ht : M2M100.jsonLookup kvs "text" with
      | none => simp [M2M100.translate, he, ht]
      | some text =>
        unfold M2M100.translate
        simp only [he, ht, Bool.false_eq_true, if_false]
        have h12 := translate_text_fst_state_independent st1 st2 loaded gen
          text (M2M100.resolveSource detected kvs) (M2M100.resolveTarget kvs)
        rw [h12]
        cases hr : (M2M100.translate_text st2 loaded gen text
            (M2M100.resolveSource detected kvs)
            (M2M100.resolveTarget kvs)).1.result with
        | ok t => exact ⟨rfl, rfl⟩
        | error e => exact ⟨rfl, rfl⟩

/-- Witness for C10: the unrecognized code `"xx"` and a raised detection
both resolve to `"en"`, which is a table value. -/
theorem detect_language_total_witness :
    M2M100.detect_language (some "xx") = "en" ∧
    M2M100.detect_language (some "xx") ∈ M2M100.LANGUAGE_MAP_values ∧
    M2M100.detect_language none = "en" :=
  ⟨(detect_language_total_returns_table_value (some "xx")).2.2 "xx" rfl
      (by decide) (by decide),
   (detect_language_total_returns_table_value (some "xx")).1,
   (detect_language_total_returns_table_value none).2.1 rfl⟩
